import Mathlib

/-!
# Verification of `datacube_stats` task generation and output drivers

A shallow embedding of `src/datacube_stats/output_drivers.py` and
`src/datacube_stats/tasks.py`.  Paths are strings, the file system is a pair
of lists (files, directories), Python exceptions are an explicit error type,
and the nested dict of open file handles is a nested inductive.  External
collaborators (the datacube catalog, `multi_product_list_cells`,
`get_filter_product`, `filter_time_by_source`) live outside `src/`; where a
claim depends on them they are modelled from the spec and marked as such.
-/

namespace DCS

/-- Python exceptions raised (or raisable) by the embedded code.  The
constructors mirror the exception classes and messages appearing in the
source: `StatsOutputError(msg)`, `OutputFileAlreadyExists(path)`, plus the
builtin `KeyError`, `IndexError`, `UnboundLocalError`, `AssertionError`,
`ValueError`, and the datacube library's `ConfigurationError`. -/
inductive PyErr where
  | statsOutputError (msg : String)
  | outputFileAlreadyExists (path : String)
  | keyError (key : String)
  | indexError
  | unboundLocalError (name : String)
  | assertionError
  | configurationError
  | valueError (msg : String)
deriving DecidableEq, Repr

/-! ## Path helpers

Python string / `pathlib` operations used by the source, modelled on
character lists.  Paths are plain strings; directory separators are `'/'`.
`pyDropRight s n` is Python's `s[:-n]`; `pyTake s n` is `s[:n]`. -/

/-- Python `s[:-n]` (drop the last `n` characters). -/
def pyDropRight (s : String) (n : Nat) : String :=
  String.mk (s.data.take (s.data.length - n))

/-- Python `s[:n]` (keep the first `n` characters). -/
def pyTake (s : String) (n : Nat) : String :=
  String.mk (s.data.take n)

/-- Does `s` end with `t`?  (Python `s.endswith(t)`.) -/
def pyEndsWith (s t : String) : Bool :=
  decide ((s.data.reverse.take t.data.length).reverse = t.data)

/-- The final path component of `p` (`pathlib.PurePath.name`). -/
def pathName (p : String) : String :=
  String.mk (p.data.reverse.takeWhile (fun c => c ≠ '/')).reverse

/-- The directory part of `p`, up to and including the last `'/'`
(empty when `p` has no separator). -/
def dirPart (p : String) : String :=
  String.mk (p.data.reverse.dropWhile (fun c => c ≠ '/')).reverse

/-- `pathlib.PurePath.suffix`: the last extension of the final component,
including its dot; empty when the name has no dot. -/
def pathSuffix (p : String) : String :=
  let n := pathName p
  if n.data.contains '.' then
    String.mk ('.' :: (n.data.reverse.takeWhile (fun c => c ≠ '.')).reverse)
  else ""

/-- `pathlib.PurePath.stem`: the final component without its last extension. -/
def pathStem (p : String) : String :=
  let n := pathName p
  if n.data.contains '.' then
    String.mk ((n.data.reverse.dropWhile (fun c => c ≠ '.')).drop 1).reverse
  else n

/-- `pathlib.PurePath.with_suffix(s)`: replace the last extension by `s`. -/
def withSuffix (p s : String) : String :=
  dirPart p ++ pathStem p ++ s

/-- `pathlib.PurePath.with_name(n)`: replace the final component by `n`. -/
def withName (p n : String) : String :=
  dirPart p ++ n

/-! ## File system -/

/-- The file-system state the drivers manipulate: the set of existing file
paths and the set of existing directories, as lists. -/
structure FS where
  files : List String
  dirs : List String
deriving DecidableEq, Repr

/-- Create a file (`open(..., 'w')` on a path that may already exist:
creating an existing path truncates it, the path set is unchanged). -/
def FS.addFile (fs : FS) (p : String) : FS :=
  if p ∈ fs.files then fs else { fs with files := p :: fs.files }

/-- `Path.unlink()`: remove a file. -/
def FS.unlink (fs : FS) (p : String) : FS :=
  { fs with files := fs.files.erase p }

/-- `Path.rename(tgt)` / `Path.replace(tgt)`: move `src` to `tgt`,
overwriting `tgt` (POSIX semantics); no-op when `src` does not exist. -/
def FS.rename (fs : FS) (src tgt : String) : FS :=
  if src ∈ fs.files then
    { fs with files := tgt :: ((fs.files.erase src).erase tgt) }
  else fs

/-- `Path.mkdir(parents=True)` wrapped in `try/except OSError: pass`
(output_drivers.py lines 180-183): an already-existing directory raises
`OSError`, which is swallowed, so this is idempotent. -/
def FS.mkdirSwallow (fs : FS) (d : String) : FS :=
  if d ∈ fs.dirs then fs else { fs with dirs := d :: fs.dirs }

/-! ## Output file handles

`OutputDriver._output_file_handles` is a dict whose values are either open
file handles or nested dicts of handles (the Geotiff driver's
single-band-per-file layout nests one level).  A leaf records the path the
handle writes to (`fh.name` / `fh.filepath()`). -/

inductive HandleNode where
  | leaf (name : String)
  | sub (entries : List (String × HandleNode))
deriving Repr

/-- `_walk_dict(file_handles, func)` (output_drivers.py lines 62-76),
translated faithfully: the function is a *generator*; on a nested dict it
makes the recursive call `_walk_dict(output_fh, func)` but never iterates
the resulting generator object, so entries inside a nested dict are never
visited and nothing is yielded for them.  Only top-level non-dict values
are passed to `func`.  (`func` never raises `TypeError` for the handle
shapes the drivers build, so the `try/except TypeError` is not modelled.) -/
def walkDict {α : Type} (func : String → α) : List (String × HandleNode) → List α
  | [] => []
  | (_, HandleNode.leaf n) :: rest => func n :: walkDict func rest
  | (_, HandleNode.sub _) :: rest => walkDict func rest

/-- Every handle actually stored in the dict, nested ones included (the
traversal `_walk_dict` was evidently intended to perform). -/
def allLeaves : List (String × HandleNode) → List String
  | [] => []
  | (_, HandleNode.leaf n) :: rest => n :: allLeaves rest
  | (_, HandleNode.sub es) :: rest => allLeaves es ++ allLeaves rest

/-- The file-system effect of the comprehension
`[path.rename(str(path)[:-4]) for path in paths]`: rename each path in
order, dropping its last four characters (the `'.tmp'` suffix). -/
def renameAll (fs : FS) (ps : List String) : FS :=
  ps.foldl (fun a p => a.rename p (pyDropRight p 4)) fs

/-- Result of `close_files`: which handles were closed (by path, in walk
order), the resulting file system, and the Python return value (`none`
models returning `None`). -/
structure CloseOutcome where
  closedHandles : List String
  fs : FS
  ret : Option (List String)
deriving DecidableEq, Repr

/-- `OutputDriver.close_files(completed_successfully, rename_tmps=True)`
(output_drivers.py lines 127-137): walk the handle dict once to collect
paths, walk it again closing each visited handle, and if the task completed
successfully (and `rename_tmps`) rename every collected path by stripping
its last four characters, returning the renamed paths. -/
def close_files (handles : List (String × HandleNode)) (fs : FS)
    (completed_successfully : Bool) (rename_tmps : Bool) : CloseOutcome :=
  let paths := walkDict (fun n => n) handles
  let closed := walkDict (fun n => n) handles
  if completed_successfully && rename_tmps then
    { closedHandles := closed
      fs := renameAll fs paths
      ret := some (paths.map (fun p => pyDropRight p 4)) }
  else
    { closedHandles := closed, fs := fs, ret := some paths }

/-- `ENVIBILOutputDriver._tif_to_envi(source_file)` (lines 457-472):
move `foo.bil.tmp` to `foo.bil.tif`, run `gdal_translate` producing
`foo.bil`, and unlink the intermediate tif on success; on a
`CalledProcessError` the error is logged and the intermediate is left in
place.  `convOk` is the oracle for the external tool's success. -/
def tifToEnvi (convOk : String → Bool) (fs : FS) (source_file : String) : FS :=
  let dest_file := withName source_file (pathStem source_file)
  let tmp_tif := withSuffix source_file ".tif"
  let fs1 := fs.rename source_file tmp_tif
  if convOk dest_file then (fs1.addFile dest_file).unlink tmp_tif
  else fs1

/-- `ENVIBILOutputDriver.close_files(completed_successfully)` (lines
450-455): delegate to the base `close_files` with `rename_tmps=False`, then
on success run the tif-to-ENVI conversion on every returned path.  The
method has no `return` statement, so it returns `None`. -/
def ENVIBIL_close_files (convOk : String → Bool)
    (handles : List (String × HandleNode)) (fs : FS)
    (completed_successfully : Bool) : CloseOutcome :=
  let base := close_files handles fs completed_successfully false
  if completed_successfully then
    { closedHandles := base.closedHandles
      fs := (base.ret.getD []).foldl (tifToEnvi convOk) base.fs
      ret := none }
  else
    { closedHandles := base.closedHandles, fs := base.fs, ret := none }

/-- `OutputDriver.__exit__(exc_type, exc_val, exc_tb)` (lines 159-161):
`completed_successfully = exc_type is None`, then
`self.close_files(completed_successfully)`. -/
def OutputDriver_exit (handles : List (String × HandleNode)) (fs : FS)
    (exc_type : Option PyErr) : CloseOutcome :=
  close_files handles fs exc_type.isNone true

/-- `OutputDriver._prepare_output_file` (lines 163-189) applied to the
already-formatted output path: validate the extension, fail with
`OutputFileAlreadyExists` if the final path exists, create parent
directories (an existing directory's `OSError` is swallowed), switch to the
`.tmp` sibling, removing a stale leftover `.tmp` first.  Returns the
result together with the file system at the time of return or raise. -/
def prepare_output_file (valid_extensions : List String) (output_path : String)
    (fs : FS) : Except PyErr String × FS :=
  if pathSuffix output_path ∉ valid_extensions then
    (Except.error (PyErr.statsOutputError
      ("Invalid Filename: " ++ output_path ++ " for this Output Driver")), fs)
  else if output_path ∈ fs.files then
    (Except.error (PyErr.outputFileAlreadyExists output_path), fs)
  else
    let fs1 := fs.mkdirSwallow (dirPart output_path)
    let tmp_path := withSuffix output_path (pathSuffix output_path ++ ".tmp")
    let fs2 := if tmp_path ∈ fs1.files then fs1.unlink tmp_path else fs1
    (Except.ok tmp_path, fs2)

/-- One guarded-acquisition (`with driver: ...`) run of a driver over a
single product, at the base-class level: `__enter__` prepares the output
file and opens a write handle at the `.tmp` path, the body either finishes
or raises `body_exc`, and `__exit__` always runs with
`completed_successfully = (body_exc is None)`. -/
def guardedWriteScenario (valid_extensions : List String)
    (prod_name output_path : String) (fs : FS) (body_exc : Option PyErr) :
    Except PyErr CloseOutcome :=
  match prepare_output_file valid_extensions output_path fs with
  | (Except.error e, _) => Except.error e
  | (Except.ok tmp, fs1) =>
      let fs2 := fs1.addFile tmp
      let handles := [(prod_name, HandleNode.leaf tmp)]
      Except.ok (OutputDriver_exit handles fs2 body_exc)

/-! ## Task generation (`src/datacube_stats/tasks.py`)

Timestamps, dates, and periods.  A source timestamp is kept in the ISO
form `"YYYY-MM-DDTHH:MM:SS"` produced by
`strftime("%Y-%m-%dT%H:%M:%S")`; `strftime("%Y-%m-%d")` is its first ten
characters.  Date-range endpoints are abstracted to naturals (only their
order matters to the embedded code). -/

/-- `s.strftime("%Y-%m-%d")` of an ISO timestamp string. -/
def strftimeDay (t : String) : String := pyTake t 10

/-- `s.strftime("%Y-%m-%dT%H:%M:%S")` of an ISO timestamp string. -/
def strftimeFull (t : String) : String := t

abbrev TileIdx := Int × Int

/-- A `datacube.api.Tile` as used by the embedded code: the list of
grouped source timestamps (`tile.sources.time.values`).  The geobox and
the dataset references carried by a real tile are opaque to every claim
and are not modelled. -/
structure Tile where
  times : List String
deriving DecidableEq, Repr

/-- One declared mask inside a source spec (`source_spec['masks'][i]`). -/
structure MaskSpec where
  product : String
deriving DecidableEq, Repr

/-- One source specification from the configuration
(`source_spec` dict): product name, optional time restriction, optional
group-by, optional source filter, declared masks in order. -/
structure SourceSpec where
  product : String
  time : Option (Nat × Nat)
  group_by : Option String
  source_filter : Option String
  masks : List MaskSpec
deriving DecidableEq, Repr

/-- `StatsTask.spatial_id`: grid coordinates `{'x':…,'y':…}`, a feature id
`{'feature_id':…}`, or — after the temporal filter pass — the filter's
extra filename args written into the `x`/`y` slots. -/
inductive SpatialId where
  | gridXY (x y : Int)
  | featureId (fid : String)
  | filterArgs (a b : String)
deriving DecidableEq, Repr

/-- `datacube_stats.models.DataSource` as constructed by the generators. -/
structure DataSource where
  data : Tile
  masks : List (Option Tile)
  spec : SourceSpec
  source_index : Nat
deriving DecidableEq, Repr

/-- `datacube_stats.models.StatsTask` as constructed by the generators
(only the fields the generators populate). -/
structure StatsTask where
  time_period : Nat × Nat
  spatial_id : SpatialId
  sources : List DataSource
deriving DecidableEq, Repr

/-- Modelled from the spec: `filter_time_by_source`
(`datacube_stats.utils.dates`, not under `src/`) — "compute the effective
time sub-range by intersecting the spec's own optional time restriction
with the current date range; if the intersection is empty, skip that spec
for this period". -/
def filter_time_by_source (restriction : Option (Nat × Nat))
    (period : Nat × Nat) : Option (Nat × Nat) :=
  match restriction with
  | none => some period
  | some r =>
      let lo := max r.1 period.1
      let hi := min r.2 period.2
      if lo < hi then some (lo, hi) else none

/-- Association-list lookup (Python `dict[k]` / `dict.get(k)`). -/
def alookup {α β : Type} [DecidableEq α] (k : α) : List (α × β) → Option β
  | [] => none
  | (k', v) :: rest => if k' = k then some v else alookup k rest

/-- Modelled from the spec: the catalog side of `multi_product_list_cells`
(`datacube_stats.utils.query`, not under `src/`) — a batched query that
returns, for each queried product, a mapping tile-index → tile (masks
aligned to the primary product's tile keys), plus per-product unmatched
dataset counts.  `tiles p ci t` is the mapping for product `p` restricted
to cell `ci` (or the whole geopolygon when `ci` is `none`) and time `t`;
`unmatched` is the reported unmatched count for a product. -/
structure CellOracle where
  tiles : String → Option TileIdx → (Nat × Nat) → List (TileIdx × Tile)
  unmatched : String → Option TileIdx → (Nat × Nat) → Nat

/-- `multi_product_list_cells(products, workflow, …)` as called at
tasks.py lines 134-139: one tile mapping per product, in the given product
order, plus the unmatched report (indexed per product; the caller uses
`unmatched_[0]`). -/
def multi_product_list_cells (oracle : CellOracle) (products : List String)
    (cell_index : Option TileIdx) (time : Nat × Nat) :
    List (List (TileIdx × Tile)) × List Nat :=
  (products.map (fun p => oracle.tiles p cell_index time),
   products.map (fun p => oracle.unmatched p cell_index time))

/-- `tasks.setdefault(tile, StatsTask(…))` followed by
`task.sources.append(ds)` (tasks.py lines 143-148): the task dict keeps
insertion order; a fresh key is appended at the end, and the data source is
appended to the (possibly fresh) task in place. -/
def setdefaultAppend : List (TileIdx × StatsTask) → TileIdx → StatsTask →
    DataSource → List (TileIdx × StatsTask)
  | [], tile, dflt, ds => [(tile, { dflt with sources := dflt.sources ++ [ds] })]
  | (k, t) :: rest, tile, dflt, ds =>
      if k = tile then (k, { t with sources := t.sources ++ [ds] }) :: rest
      else (k, t) :: setdefaultAppend rest tile dflt ds

/-- The body of the per-source-spec loop of `collect_tasks` (tasks.py
lines 123-148), folded over the task dict; `p` is the enumerated
`(source_index, source_spec)` pair. -/
def collect_step (oracle : CellOracle) (time_period : Nat × Nat)
    (tile_index : Option TileIdx) (tasks : List (TileIdx × StatsTask))
    (p : Nat × SourceSpec) : List (TileIdx × StatsTask) :=
  match filter_time_by_source p.2.time time_period with
  | none => tasks
  | some ep_range =>
      let products := p.2.product :: p.2.masks.map (fun m => m.product)
      let results := (multi_product_list_cells oracle products tile_index ep_range).1
      let data := results.headD []
      let masks := results.tail
      data.foldl (fun tasks dt =>
        setdefaultAppend tasks dt.1
          (StatsTask.mk ep_range (SpatialId.gridXY dt.1.1 dt.1.2) [])
          (DataSource.mk dt.2 (masks.map (fun m => alookup dt.1 m))
            p.2 p.1)) tasks

/-- `GriddedTaskGenerator.collect_tasks(workflow, time_period,
sources_spec, tile_index=None)` (tasks.py lines 115-150): fold the
enumerated source specs over a tile-keyed task dict; for each spec whose
time restriction intersects the period, batch-query primary and mask
products, and for every returned tile get-or-create the task and append a
`DataSource` whose masks are the per-declared-mask lookups at that tile
(`[mask.get(tile) for mask in masks]`).  Returns `list(tasks.values())`. -/
def collect_tasks (oracle : CellOracle) (time_period : Nat × Nat)
    (sources_spec : List SourceSpec) (tile_index : Option TileIdx) :
    List StatsTask :=
  ((sources_spec.enum.foldl (collect_step oracle time_period tile_index)
    []).map (fun kv => kv.2))

/-- `GriddedTaskGenerator.__call__(index, sources_spec, date_ranges)`
(tasks.py lines 81-113): for each date range, either iterate the explicit
tile list or run an unrestricted collection, yielding every collected
task. -/
def GriddedTaskGenerator_call (oracle : CellOracle)
    (tile_indexes : Option (List TileIdx)) (sources_spec : List SourceSpec)
    (date_ranges : List (Nat × Nat)) : List StatsTask :=
  (date_ranges.map (fun time_period =>
    match tile_indexes with
    | some tis =>
        (tis.map (fun ti =>
          collect_tasks oracle time_period sources_spec (some ti))).flatten
    | none => collect_tasks oracle time_period sources_spec none)).flatten

/-- One feature read from the shapefile (`features_from_file`), as used by
the non-gridded generator: only its `id` is inspected here. -/
structure Feature where
  id : Option String
deriving DecidableEq, Repr

/-- The `filter_product` configuration dict: only its `'method'` key is
read by the code under `src/` (the rest is passed to the external
`get_filter_product`). -/
structure FilterProduct where
  method : String
deriving DecidableEq, Repr

/-- Modelled from the spec: the datacube find/group calls inside
`ArbitraryTileMaker.__call__` (tasks.py lines 313-332) — building the
tile for a product over the region/feature is delegated to the external
catalog; `tile p f t g` is the resulting time-grouped tile. -/
structure ArbOracle where
  tile : String → Option Feature → (Nat × Nat) → String → Tile

/-- Modelled from the spec: `get_filter_product`
(`datacube_stats.utils.tide_utility`, not under `src/`) — "returns (a)
extra filename-disambiguation arguments and (b) the subset of timestamps
to retain", keyed by the declared filter method. -/
structure FilterOracle where
  apply : FilterProduct → Option Feature → List String → List (Nat × Nat) →
    (String × String) × List String

/-- One iteration of `set_task`'s first loop (tasks.py lines 197-210):
format the source's timestamps per the filter method (any other method
leaves `all_dates` unassigned — `UnboundLocalError`), then either narrow
the source's tile to the positions whose formatted date is retained, or
record the source's index for removal. -/
def set_task_step (method : Option String) (filtered_times : List String)
    (acc : List DataSource × List Nat) (p : Nat × DataSource) :
    Except PyErr (List DataSource × List Nat) := do
  let i := p.1
  let sr := p.2
  let all_dates ← (if method = some "by_hydrological_months" then
      Except.ok (sr.data.times.map strftimeDay)
    else if method = some "by_tide_height" then
      Except.ok (sr.data.times.map strftimeFull)
    else (Except.error (PyErr.unboundLocalError "all_dates") :
        Except PyErr (List String)))
  if all_dates.any (fun d => filtered_times.contains d) then
    let kept := all_dates.enum.filterMap (fun q =>
      if filtered_times.contains q.2 then sr.data.times.get? q.1 else none)
    Except.ok (acc.1 ++ [{ sr with data := Tile.mk kept }], acc.2)
  else
    Except.ok (acc.1 ++ [sr], acc.2 ++ [i])

/-- One iteration of `set_task`'s removal loop (tasks.py lines 212-214):
`del task.sources[i]` — positional deletion on the current (shrinking)
list; an out-of-range index raises `IndexError`. -/
def del_step (srcs : List DataSource) (i : Nat) :
    Except PyErr (List DataSource) :=
  if i < srcs.length then Except.ok (srcs.eraseIdx i)
  else Except.error PyErr.indexError

/-- `NonGriddedTaskGenerator.set_task(task, filtered_times)` (tasks.py
lines 188-215), including its two known traps, translated faithfully:

* `all_dates` is only assigned in the two recognized `method` branches, so
  any other method raises `UnboundLocalError` at the intersection test;
* removal is `for i in remove_index_list: del task.sources[i]`, i.e.
  sequential positional deletion on the shrinking list (the source itself
  carries the comment "NOTE pretty sure this should not work"); an index
  past the shrunk length raises `IndexError`.

A source whose formatted dates intersect `filtered_times` has its tile
narrowed in place to the matching positions
(`v.sources.isel(time=[i for i, item in enumerate(all_dates) if item in
filtered_times])`). -/
def set_task (method : Option String) (task : StatsTask)
    (filtered_times : List String) : Except PyErr StatsTask := do
  let r ← task.sources.enum.foldlM (set_task_step method filtered_times) ([], [])
  let finalSources ← r.2.foldlM del_step r.1
  Except.ok { task with sources := finalSources }

/-- `NonGriddedTaskGenerator.filter_task(task, feature, date_ranges)`
(tasks.py lines 217-241): when a filter product is configured, collect and
sort all source timestamps, delegate to the external filter, apply
`set_task`, and overwrite `task.spatial_id` with the filter's extra
filename args in the `x`/`y` slots ("preserving old questionable
behavior"). -/
def filter_task (filter_product : Option FilterProduct)
    (fOracle : FilterOracle) (task : StatsTask) (feature : Option Feature)
    (date_ranges : List (Nat × Nat)) : Except PyErr StatsTask :=
  match filter_product with
  | none => Except.ok task
  | some fp =>
      let all_source_times := List.insertionSort (fun a b => a ≤ b)
        (task.sources.foldl (fun acc sr => acc ++ sr.data.times) [])
      let res := fOracle.apply fp feature all_source_times date_ranges
      match set_task (some fp.method) task res.2 with
      | Except.error e => Except.error e
      | Except.ok t =>
          Except.ok { t with spatial_id := SpatialId.filterArgs res.1.1 res.1.2 }

/-- The feature id written into `spatial_id` (tasks.py lines 256-259):
`'(none)'` when there is no feature or its id is `None`, else
`str(feature.id)`. -/
def featureIdOf (feature : Option Feature) : String :=
  match feature with
  | none => "(none)"
  | some f =>
      match f.id with
      | none => "(none)"
      | some i => i

/-- The body of the per-source-spec loop of
`NonGriddedTaskGenerator.__call__` (tasks.py lines 265-288): skip a spec
with an empty effective time range, otherwise build the primary tile and
one tile per declared mask (built even when empty), skip the spec if the
primary tile matched no timestamps, and append the `DataSource`. -/
def nonGridded_spec_step (arb : ArbOracle) (feature : Option Feature)
    (time_period : Nat × Nat) (task : StatsTask) (p : Nat × SourceSpec) :
    StatsTask :=
  match filter_time_by_source p.2.time time_period with
  | none => task
  | some ep_range =>
      let group_by := p.2.group_by.getD "time"
      let data := arb.tile p.2.product feature ep_range group_by
      let masks := p.2.masks.map (fun m =>
        arb.tile m.product feature ep_range group_by)
      if data.times.length = 0 then task
      else { task with sources := task.sources ++
        [DataSource.mk data (masks.map some) p.2 p.1] }

/-- The body of `NonGriddedTaskGenerator.__call__` for one
(feature, time_period) pair (tasks.py lines 254-295): build the task with
`spatial_id {'feature_id': …}`, fold the enumerated specs appending a
`DataSource` per spec with a non-empty effective range and at least one
matched timestamp (each declared mask gets its own tile, built even when
empty), and — only when the accumulated `sources` list is non-empty —
apply `filter_task` and yield.  `none` means no task is yielded for the
pair. -/
def NonGridded_one_task (arb : ArbOracle)
    (filter_product : Option FilterProduct) (fOracle : FilterOracle)
    (feature : Option Feature) (time_period : Nat × Nat)
    (sources_spec : List SourceSpec) (date_ranges : List (Nat × Nat)) :
    Option (Except PyErr StatsTask) :=
  let task0 := StatsTask.mk time_period (SpatialId.featureId (featureIdOf feature)) []
  let task1 := sources_spec.enum.foldl
    (nonGridded_spec_step arb feature time_period) task0
  if task1.sources.isEmpty then none
  else some (filter_task filter_product fOracle task1 feature date_ranges)

/-- `NonGriddedTaskGenerator.__call__(index, sources_spec, date_ranges)`
(tasks.py lines 243-295): iterate features (the `[None]` sentinel when no
shapefile was given) × date ranges, yielding each produced task; an
exception raised inside the generator ends the iteration, so the result is
the list of tasks yielded before the error together with the error, if
any. -/
def NonGriddedTaskGenerator_call (arb : ArbOracle)
    (filter_product : Option FilterProduct) (fOracle : FilterOracle)
    (features : Option (List Feature)) (sources_spec : List SourceSpec)
    (date_ranges : List (Nat × Nat)) : List StatsTask × Option PyErr :=
  let feats : List (Option Feature) := match features with
    | none => [none]
    | some fs => fs.map some
  let pairs := (feats.map (fun f => date_ranges.map (fun tp => (f, tp)))).flatten
  pairs.foldl (fun (acc : List StatsTask × Option PyErr) p =>
    match acc.2 with
    | some _ => acc
    | none =>
        match NonGridded_one_task arb filter_product fOracle p.1 p.2
            sources_spec date_ranges with
        | none => acc
        | some (Except.ok t) => (acc.1 ++ [t], none)
        | some (Except.error e) => (acc.1, some e))
    ([], none)

/-- The `GridSpec` value `_make_grid_spec` builds: CRS plus tile size and
resolution ordered by the CRS's native dimension order. -/
structure GridSpecM where
  crs : String
  tile_size : List Int
  resolution : List Int
deriving DecidableEq, Repr

/-- The storage configuration dict as read by `_make_grid_spec`:
`tile_size` is `none` when the key is absent. -/
structure StorageConfig where
  crs : String
  tile_size : Option (List (String × Int))
  resolution : List (String × Int)

/-- `_make_grid_spec(storage)` (tasks.py lines 158-165): `assert
'tile_size' in storage` (an absent key raises `AssertionError`), then
build the `GridSpec` by indexing `tile_size` and `resolution` at each CRS
dimension (an absent dimension key raises `KeyError`).  `crs_dimensions`
models the external `CRS(...).dimensions`. -/
def _make_grid_spec (crs_dimensions : String → List String)
    (storage : StorageConfig) : Except PyErr GridSpecM :=
  match storage.tile_size with
  | none => Except.error PyErr.assertionError
  | some ts => do
      let dims := crs_dimensions storage.crs
      let tile_size ← dims.mapM (fun d => match alookup d ts with
        | some v => Except.ok v
        | none => (Except.error (PyErr.keyError d) : Except PyErr Int))
      let resolution ← dims.mapM (fun d => match alookup d storage.resolution with
        | some v => Except.ok v
        | none => (Except.error (PyErr.keyError d) : Except PyErr Int))
      Except.ok (GridSpecM.mk storage.crs tile_size resolution)

/-! ## Driver registry (`RegisterDriver` metaclass, output_drivers.py 35-44) -/

/-- Python `s.replace(pattern, replacement)`: replace every occurrence of
`pattern` (left to right, non-overlapping).  Fuel-indexed structural
recursion on the subject; `fuel = s.length` suffices because each step
consumes at least one character when the pattern is non-empty (an empty
pattern leaves the subject unchanged here, which agrees with the one call
site, whose pattern is `"OutputDriver"`). -/
def pyReplaceAux (pattern replacement : List Char) :
    Nat → List Char → List Char
  | 0, s => s
  | _ + 1, [] => []
  | fuel + 1, c :: rest =>
      if pattern.isPrefixOf (c :: rest) then
        replacement ++ pyReplaceAux pattern replacement fuel
          ((c :: rest).drop pattern.length)
      else c :: pyReplaceAux pattern replacement fuel rest

/-- Python `s.replace(pattern, replacement)` on strings. -/
def pyReplace (s pattern replacement : String) : String :=
  if pattern.data.isEmpty then s
  else String.mk (pyReplaceAux pattern.data replacement.data s.data.length s.data)

/-- `RegisterDriver.__new__` (output_drivers.py lines 38-44): at class
definition, compute `name = cls.__name__.replace('OutputDriver', '')` and,
if the result is non-empty, store the class in `OUTPUT_DRIVERS` under that
name (dict insertion keeps order; the registry maps stripped name to class
name here). -/
def registerDriver (registry : List (String × String)) (clsName : String) :
    List (String × String) :=
  let name := pyReplace clsName "OutputDriver" ""
  if name = "" then registry else registry ++ [(name, clsName)]

/-- The classes carrying the `RegisterDriver` metaclass, in module
definition order (every subclass of `OutputDriver` inherits the
metaclass). -/
def driverClassNames : List String :=
  ["OutputDriver", "NetCDFCFOutputDriver", "GeotiffOutputDriver",
   "ENVIBILOutputDriver", "TestOutputDriver", "XarrayOutputDriver"]

/-- The module-level `OUTPUT_DRIVERS` registry after all class definitions
have executed. -/
def OUTPUT_DRIVERS : List (String × String) :=
  driverClassNames.foldl registerDriver []

/-! ## Geotiff driver: measurements and `open_output_files` -/

/-- One measurement definition of an output product (dtype and no-data
value are the fields the Geotiff driver reads). -/
structure Measurement where
  dtype : String
  nodata : Int
deriving DecidableEq, Repr

/-- An output-product descriptor as seen by the drivers: the product's
measurements (an ordered mapping) and the configured file path template. -/
structure OutProduct where
  measurements : List (String × Measurement)
  file_path_template : String
deriving DecidableEq, Repr

/-- `GeotiffOutputDriver._get_dtype(out_prod_name, measurement_name=None)`
(output_drivers.py lines 331-340): with a measurement name, return that
measurement's dtype; otherwise collect the set of dtypes of all the
product's measurements and fail with the `StatsOutputError` below unless
it is a singleton. -/
def GeotiffOutputDriver_get_dtype
    (output_products : List (String × OutProduct)) (out_prod_name : String)
    (measurement_name : Option String) : Except PyErr String :=
  match alookup out_prod_name output_products with
  | none => Except.error (PyErr.keyError out_prod_name)
  | some prod =>
      match measurement_name with
      | some m =>
          match alookup m prod.measurements with
          | none => Except.error (PyErr.keyError m)
          | some meas => Except.ok meas.dtype
      | none =>
          match (prod.measurements.map (fun q => q.2.dtype)).dedup with
          | [d] => Except.ok d
          | _ => Except.error (PyErr.statsOutputError
              ("Not all measurements for " ++ out_prod_name ++
               " have the same dtype.For GeoTiff output they must "))

/-- `GeotiffOutputDriver._get_nodata(prod_name, measurement_name=None)`
(lines 342-357): resolve the dtype first, then the (unique) no-data value,
remapping a negative no-data to 255 when the dtype is `uint8`. -/
def GeotiffOutputDriver_get_nodata
    (output_products : List (String × OutProduct)) (prod_name : String)
    (measurement_name : Option String) : Except PyErr Int := do
  let dtype ← GeotiffOutputDriver_get_dtype output_products prod_name
    measurement_name
  let nodata ← (match alookup prod_name output_products with
    | none => (Except.error (PyErr.keyError prod_name) : Except PyErr Int)
    | some prod =>
        match measurement_name with
        | some m =>
            match alookup m prod.measurements with
            | none => Except.error (PyErr.keyError m)
            | some meas => Except.ok meas.nodata
        | none =>
            match (prod.measurements.map (fun q => q.2.nodata)).dedup with
            | [v] => Except.ok v
            | _ => Except.error (PyErr.statsOutputError
                ("Not all nodata values for output product \x22" ++ prod_name ++
                 "\x22 are the same. Must all match for geotiff output")))
  if dtype = "uint8" ∧ nodata < 0 then Except.ok 255 else Except.ok nodata

/-- `GeotiffOutputDriver.open_output_files` (output_drivers.py lines
359-380), translated faithfully: the first statement of the per-product
loop body is

    datasets, sources = self._find_source_datasets(stat, uri=output_filename.as_uri())

but `output_filename` is a local variable of this function (assigned only
at line 375, in the single-file branch), so on every iteration the body
raises `UnboundLocalError` for `output_filename` before any measurement
is inspected or any file prepared.  With no output products the loop body
never runs and the (empty) handle dict results. -/
def GeotiffOutputDriver_open_output_files
    (output_products : List (String × OutProduct)) :
    Except PyErr (List (String × HandleNode)) :=
  output_products.foldlM
    (fun (_ : List (String × HandleNode)) _ =>
      (Except.error (PyErr.unboundLocalError "output_filename") :
        Except PyErr (List (String × HandleNode))))
    []

/-! ## `write_data` per driver -/

/-- `OutputDriver.write_data` base-class body (output_drivers.py lines
146-149): raise `StatsOutputError('No files opened for writing.')` when
the handle dict is empty. -/
def OutputDriver_write_data
    (output_file_handles : List (String × HandleNode)) : Except PyErr Unit :=
  if output_file_handles.length ≤ 0 then
    Except.error (PyErr.statsOutputError "No files opened for writing.")
  else Except.ok ()

/-- `NetCDFCFOutputDriver.write_data` (lines 297-301): does *not* call the
base implementation; it immediately indexes
`self._output_file_handles[prod_name]`, so a missing product key raises
`KeyError`.  The actual array store and `sync()` are external I/O. -/
def NetCDFCFOutputDriver_write_data
    (handles : List (String × HandleNode)) (prod_name : String)
    (measurement_name : String) : Except PyErr Unit :=
  match alookup prod_name handles with
  | none => Except.error (PyErr.keyError prod_name)
  | some _ => Except.ok ()

/-- `GeotiffOutputDriver.write_data` (lines 419-437): first
`super().write_data(...)` (the not-open guard), then fetch the product's
handle; a dict handle is indexed by measurement name (band 1), a plain
handle's band number is the measurement's position in the product's
measurement order (`list(...).index(...)` raises `ValueError` when
absent).  The pixel write itself is external I/O. -/
def GeotiffOutputDriver_write_data
    (handles : List (String × HandleNode))
    (output_products : List (String × OutProduct)) (prod_name : String)
    (measurement_name : String) : Except PyErr Unit := do
  let _ ← OutputDriver_write_data handles
  match alookup prod_name handles with
  | none => Except.error (PyErr.keyError prod_name)
  | some (HandleNode.sub d) =>
      match alookup measurement_name d with
      | none => Except.error (PyErr.keyError measurement_name)
      | some _ => Except.ok ()
  | some (HandleNode.leaf _) =>
      match alookup prod_name output_products with
      | none => Except.error (PyErr.keyError prod_name)
      | some stat =>
          if (stat.measurements.map (fun q => q.1)).contains measurement_name
          then Except.ok ()
          else Except.error (PyErr.valueError
            (measurement_name ++ " is not in list"))

/-- `TestOutputDriver.write_data` (lines 479-480): `pass`. -/
def TestOutputDriver_write_data
    (handles : List (String × HandleNode)) (prod_name : String)
    (measurement_name : String) : Except PyErr Unit :=
  Except.ok ()

/-- `XarrayOutputDriver.write_data` (lines 500-501): `pass`. -/
def XarrayOutputDriver_write_data
    (handles : List (String × HandleNode)) (prod_name : String)
    (measurement_name : String) : Except PyErr Unit :=
  Except.ok ()

/-! ## Concrete instances used by individual claims -/

/-- A `DataSource` with a single source timestamp and no masks, used for
the temporal-filter claims. -/
def oneTimeDS (i : Nat) (t : String) : DataSource :=
  ⟨Tile.mk [t], [], ⟨"p", none, none, none, []⟩, i⟩

/-- A task with three single-timestamp sources; only the third source's
timestamp is retained by the filter below. -/
def c5Task : StatsTask :=
  ⟨(0, 10), SpatialId.featureId "(none)",
   [oneTimeDS 0 "2020-01-01T00:00:00", oneTimeDS 1 "2020-01-02T00:00:00",
    oneTimeDS 2 "2020-01-03T00:00:00"]⟩

/-- Catalog oracle for the non-gridded counterexample: every product query
matches one timestamp. -/
def c4Arb : ArbOracle := ⟨fun _ _ _ _ => Tile.mk ["2020-01-05T00:00:00"]⟩

/-- Filter oracle for the non-gridded counterexample: retains a timestamp
set disjoint from every source. -/
def c4Filter : FilterOracle :=
  ⟨fun _ _ _ _ => (("a", "b"), ["1999-01-01T00:00:00"])⟩

/-- A source spec with no masks and no time restriction. -/
def c4Spec : SourceSpec := ⟨"ls8", none, none, none, []⟩

/-- An output product whose two measurements have different dtypes. -/
def c6Mixed : List (String × OutProduct) :=
  [("wofs", ⟨[("m1", ⟨"uint8", -1⟩), ("m2", ⟨"int16", -999⟩)],
    "f_{x}_{y}.tif"⟩)]

/-- An output product whose two measurements share dtype and nodata. -/
def c6Same : List (String × OutProduct) :=
  [("wofs", ⟨[("m1", ⟨"uint8", -1⟩), ("m2", ⟨"uint8", -1⟩)],
    "f_{x}_{y}.tif"⟩)]

/-- Gridded catalog oracle: the primary product matches one tile, mask
products match nothing (their slots must still appear). -/
def c7Oracle : CellOracle :=
  ⟨fun p _ _ => if p = "ls8" then [((1, 2), Tile.mk ["t1"])] else [],
   fun _ _ _ => 0⟩

/-- A source spec declaring two masks. -/
def c7Spec : SourceSpec := ⟨"ls8", none, none, none, [⟨"pq"⟩, ⟨"dsm"⟩]⟩

/-- Non-gridded catalog oracle matching one timestamp per product. -/
def c7Arb : ArbOracle := ⟨fun _ _ _ _ => Tile.mk ["2020-01-05T00:00:00"]⟩

/-- Filter oracle that retains the matched timestamp. -/
def c7Filter : FilterOracle :=
  ⟨fun _ _ _ _ => (("a", "b"), ["2020-01-05T00:00:00"])⟩

/-- Gridded catalog oracle for the non-emptiness witness. -/
def c4gOracle : CellOracle :=
  ⟨fun p _ _ => if p = "ls8" then [((3, 4), Tile.mk ["t2"])] else [],
   fun _ _ _ => 0⟩

/-- Non-gridded catalog oracle for the non-emptiness witness. -/
def c4nArb : ArbOracle := ⟨fun _ _ _ _ => Tile.mk ["2021-06-01T00:00:00"]⟩

/-- Unused filter oracle (the witness runs with no filter product). -/
def c4nFilter : FilterOracle := ⟨fun _ _ _ _ => (("", ""), [])⟩

/-! ## Helper lemmas: paths -/

theorem dirPart_append_pathName (p : String) : dirPart p ++ pathName p = p := by
  apply String.ext
  simp only [String.data_append, dirPart, pathName]
  rw [← List.reverse_append, List.takeWhile_append_dropWhile, List.reverse_reverse]

theorem dropWhile_dot_cons {l : List Char} (h : '.' ∈ l) :
    ∃ t, l.dropWhile (fun c => c ≠ '.') = '.' :: t := by
  induction l with
  | nil => cases h
  | cons a t ih =>
      by_cases ha : a = '.'
      · subst ha
        exact ⟨t, by simp [List.dropWhile_cons]⟩
      · have hmem : '.' ∈ t := by
          rcases List.mem_cons.mp h with h1 | h2
          · exact absurd h1.symm ha
          · exact h2
        obtain ⟨t', ht⟩ := ih hmem
        refine ⟨t', ?_⟩
        rw [List.dropWhile_cons, if_pos (by simp [ha])]
        exact ht

theorem pathStem_append_pathSuffix (p : String) :
    pathStem p ++ pathSuffix p = pathName p := by
  simp only [pathStem, pathSuffix]
  by_cases h : (pathName p).data.contains '.'
  · simp only [h, if_true]
    apply String.ext
    simp only [String.data_append]
    have hdot : '.' ∈ (pathName p).data.reverse := by
      rw [List.mem_reverse]
      exact List.elem_iff.mp h
    obtain ⟨t, ht⟩ := dropWhile_dot_cons hdot
    rw [ht]
    have hsplit : (pathName p).data.reverse.takeWhile (fun c => c ≠ '.') ++
        ('.' :: t) = (pathName p).data.reverse := by
      rw [← ht]
      exact List.takeWhile_append_dropWhile _ _
    calc (('.' :: t).drop 1).reverse ++
          '.' :: ((pathName p).data.reverse.takeWhile (fun c => c ≠ '.')).reverse
        = (((pathName p).data.reverse.takeWhile (fun c => c ≠ '.')) ++
            ('.' :: t)).reverse := by
          simp [List.reverse_append, List.reverse_cons, List.append_assoc]
      _ = (pathName p).data := by rw [hsplit, List.reverse_reverse]
  · simp only [h, if_false]
    apply String.ext
    simp [String.data_append]

theorem withSuffix_tmp (p : String) :
    withSuffix p (pathSuffix p ++ ".tmp") = p ++ ".tmp" := by
  apply String.ext
  have e2 : (pathStem p).data ++ (pathSuffix p).data = (pathName p).data := by
    have := congrArg String.data (pathStem_append_pathSuffix p)
    simpa using this
  have e1 : (dirPart p).data ++ (pathName p).data = p.data := by
    have := congrArg String.data (dirPart_append_pathName p)
    simpa using this
  simp only [withSuffix, String.data_append, ← List.append_assoc]
  rw [List.append_assoc (dirPart p).data (pathStem p).data (pathSuffix p).data,
      e2, e1]

/-- A path is never equal to itself with `".tmp"` appended. -/
theorem ne_append_tmp (p : String) : p ≠ p ++ ".tmp" := by
  intro h
  have := congrArg (fun s => s.data.length) h
  simp [String.data_append] at this

/-! ## Helper lemmas: file system renaming -/

theorem FS.mem_addFile_self (fs : FS) (p : String) : p ∈ (fs.addFile p).files := by
  unfold FS.addFile
  by_cases h : p ∈ fs.files <;> simp [h]

theorem FS.mem_addFile_elim {fs : FS} {p x : String}
    (h : x ∈ (fs.addFile p).files) : x = p ∨ x ∈ fs.files := by
  unfold FS.addFile at h
  by_cases hp : p ∈ fs.files
  · simp [hp] at h; exact Or.inr h
  · simp [hp, List.mem_cons] at h; exact h

theorem FS.mem_mkdirSwallow_self (fs : FS) (d : String) :
    d ∈ (fs.mkdirSwallow d).dirs := by
  unfold FS.mkdirSwallow
  by_cases h : d ∈ fs.dirs <;> simp [h]

theorem FS.mkdirSwallow_files (fs : FS) (d : String) :
    (fs.mkdirSwallow d).files = fs.files := by
  unfold FS.mkdirSwallow
  by_cases h : d ∈ fs.dirs <;> simp [h]

theorem rename_mem_of_ne {fs : FS} {x src tgt : String} (hx : x ∈ fs.files)
    (hne : x ≠ src) : x ∈ (fs.rename src tgt).files := by
  unfold FS.rename
  by_cases h : src ∈ fs.files
  · simp only [h, if_true]
    by_cases hxt : x = tgt
    · subst hxt; exact List.mem_cons_self _ _
    · exact List.mem_cons_of_mem _
        ((List.mem_erase_of_ne hxt).mpr ((List.mem_erase_of_ne hne).mpr hx))
  · simpa [h] using hx

theorem rename_not_mem {fs : FS} {x src tgt : String} (hx : x ∉ fs.files)
    (hnt : x ≠ tgt) : x ∉ (fs.rename src tgt).files := by
  unfold FS.rename
  by_cases h : src ∈ fs.files
  · simp only [h, if_true]
    intro hmem
    rcases List.mem_cons.mp hmem with h1 | h2
    · exact hnt h1
    · exact hx (List.mem_of_mem_erase (List.mem_of_mem_erase h2))
  · simpa [h] using hx

theorem rename_tgt_mem {fs : FS} {src : String} (tgt : String)
    (h : src ∈ fs.files) : tgt ∈ (fs.rename src tgt).files := by
  simp [FS.rename, h]

theorem rename_src_not_mem {fs : FS} {src tgt : String}
    (hnodup : fs.files.Nodup) (hne : src ≠ tgt) :
    src ∉ (fs.rename src tgt).files := by
  unfold FS.rename
  by_cases h : src ∈ fs.files
  · simp only [h, if_true]
    intro hmem
    rcases List.mem_cons.mp hmem with h1 | h2
    · exact hne h1
    · have h4 : src ∈ fs.files.erase src := List.mem_of_mem_erase h2
      exact absurd ((hnodup.mem_erase_iff).mp h4).1 (by simp)
  · simp [h]

theorem rename_nodup {fs : FS} {src tgt : String} (h : fs.files.Nodup) :
    (fs.rename src tgt).files.Nodup := by
  unfold FS.rename
  by_cases hs : src ∈ fs.files
  · simp only [hs, if_true]
    refine List.nodup_cons.mpr ⟨?_, (h.erase src).erase tgt⟩
    intro hmem
    exact absurd (((h.erase src).mem_erase_iff).mp hmem).1 (by simp)
  · simpa [hs] using h

theorem renameAll_cons (fs : FS) (p : String) (rest : List String) :
    renameAll fs (p :: rest) = renameAll (fs.rename p (pyDropRight p 4)) rest := rfl

theorem mem_renameAll {ps : List String} {fs : FS} {x : String}
    (hx : x ∈ fs.files) (h : ∀ q ∈ ps, q ≠ x) :
    x ∈ (renameAll fs ps).files := by
  induction ps generalizing fs with
  | nil => exact hx
  | cons p rest ih =>
      rw [renameAll_cons]
      exact ih
        (rename_mem_of_ne hx (fun he => h p (List.mem_cons_self _ _) he.symm))
        (fun q hq => h q (List.mem_cons_of_mem _ hq))

theorem not_mem_renameAll {ps : List String} {fs : FS} {x : String}
    (hx : x ∉ fs.files) (h : ∀ q ∈ ps, pyDropRight q 4 ≠ x) :
    x ∉ (renameAll fs ps).files := by
  induction ps generalizing fs with
  | nil => exact hx
  | cons p rest ih =>
      rw [renameAll_cons]
      exact ih (rename_not_mem hx (fun he => h p (List.mem_cons_self _ _) he.symm))
        (fun q hq => h q (List.mem_cons_of_mem _ hq))

theorem renameAll_spec {ps : List String} {fs : FS}
    (hpsnd : ps.Nodup) (hfsnd : fs.files.Nodup)
    (hin : ∀ p ∈ ps, p ∈ fs.files)
    (hnc : ∀ p ∈ ps, ∀ q ∈ ps, pyDropRight q 4 ≠ p) :
    ∀ p ∈ ps, pyDropRight p 4 ∈ (renameAll fs ps).files ∧
      p ∉ (renameAll fs ps).files := by
  induction ps generalizing fs with
  | nil => intro p hp; cases hp
  | cons p0 rest ih =>
      intro p hp
      rw [renameAll_cons]
      rcases List.mem_cons.mp hp with rfl | hp'
      · constructor
        · apply mem_renameAll
          · exact rename_tgt_mem _ (hin p (List.mem_cons_self _ _))
          · intro q hq he
            exact hnc q (List.mem_cons_of_mem _ hq) p (List.mem_cons_self _ _)
              he.symm
        · apply not_mem_renameAll
          · exact rename_src_not_mem hfsnd
              (fun he => hnc p (List.mem_cons_self _ _) p (List.mem_cons_self _ _)
                he.symm)
          · intro q hq
            exact hnc p (List.mem_cons_self _ _) q (List.mem_cons_of_mem _ hq)
      · have hrest : rest.Nodup := (List.nodup_cons.mp hpsnd).2
        have hp0 : p0 ∉ rest := (List.nodup_cons.mp hpsnd).1
        refine ih hrest (rename_nodup hfsnd) ?_ ?_ p hp'
        · intro r hr
          exact rename_mem_of_ne (hin r (List.mem_cons_of_mem _ hr))
            (fun he => hp0 (he ▸ hr))
        · intro a ha b hb
          exact hnc a (List.mem_cons_of_mem _ ha) b (List.mem_cons_of_mem _ hb)

theorem walkDict_eq_allLeaves {handles : List (String × HandleNode)}
    (hflat : ∀ e ∈ handles, ∃ n, e.2 = HandleNode.leaf n) :
    walkDict (fun n => n) handles = allLeaves handles := by
  induction handles with
  | nil => simp [walkDict, allLeaves]
  | cons e rest ih =>
      obtain ⟨k, v⟩ := e
      obtain ⟨n, hn⟩ := hflat (k, v) (List.mem_cons_self _ _)
      simp only at hn
      subst hn
      simp [walkDict, allLeaves,
        ih (fun x hx => hflat x (List.mem_cons_of_mem _ hx))]

/-! ## Claims -/

/-- **C10.**  Every concrete subclass of `OutputDriver` is registered in
`OUTPUT_DRIVERS` at class-definition time under its class name with the
`OutputDriver` suffix stripped, in definition order, and the abstract base
class itself (stripped name empty) is never registered: the registry holds
exactly the five concrete drivers and no entry maps to the base class. -/
theorem C10_driver_registry :
    OUTPUT_DRIVERS =
      [("NetCDFCF", "NetCDFCFOutputDriver"), ("Geotiff", "GeotiffOutputDriver"),
       ("ENVIBIL", "ENVIBILOutputDriver"), ("Test", "TestOutputDriver"),
       ("Xarray", "XarrayOutputDriver")] ∧
    pyReplace "OutputDriver" "OutputDriver" "" = "" ∧
    alookup "" OUTPUT_DRIVERS = none ∧
    OUTPUT_DRIVERS.all (fun kv => kv.2 ≠ "OutputDriver") = true := by
  refine ⟨by decide, by decide, by decide, by decide⟩

/-- **C6** (code bug).  The dtype consistency check itself behaves as the
claim says — `_get_dtype` with no measurement name fails with the
`InconsistentMeasurements` `StatsOutputError` for mixed dtypes and returns
the common dtype otherwise — but `open_output_files` never reaches it: its
loop body's first statement reads the unassigned local `output_filename`,
so for any non-empty product set it raises `UnboundLocalError` instead of
either succeeding or raising `InconsistentMeasurements`. -/
theorem C6_geotiff_open_failing_input :
    GeotiffOutputDriver_get_dtype c6Mixed "wofs" none =
      Except.error (PyErr.statsOutputError
        "Not all measurements for wofs have the same dtype.For GeoTiff output they must ") ∧
    GeotiffOutputDriver_get_dtype c6Same "wofs" none = Except.ok "uint8" ∧
    GeotiffOutputDriver_get_nodata c6Same "wofs" none = Except.ok 255 ∧
    GeotiffOutputDriver_open_output_files c6Mixed =
      Except.error (PyErr.unboundLocalError "output_filename") ∧
    GeotiffOutputDriver_open_output_files c6Same =
      Except.error (PyErr.unboundLocalError "output_filename") := by
  refine ⟨rfl, rfl, rfl, rfl, rfl⟩

/-- **C5** (code bug).  Failing input for the temporal-filter removal: a
task with three sources of which the first two fall outside the retained
set.  `set_task` collects `remove_index_list = [0, 1]` and then performs
`del task.sources[0]; del task.sources[1]` on the shrinking list, so the
second non-intersecting source (index 1) *survives* while the intersecting
third source is removed — the opposite of the claim.  The conjuncts pin
down that the survivor's timestamp is not in the retained set while the
removed third source's timestamp is. -/
theorem C5_filter_removal_failing_input :
    set_task (some "by_tide_height") c5Task ["2020-01-03T00:00:00"] =
      Except.ok { c5Task with sources := [oneTimeDS 1 "2020-01-02T00:00:00"] } ∧
    ("2020-01-02T00:00:00" ∈ (["2020-01-03T00:00:00"] : List String)) = False ∧
    ("2020-01-03T00:00:00" ∈ (["2020-01-03T00:00:00"] : List String)) = True := by
  refine ⟨rfl, by decide, by decide⟩

/-- **C8** counterexample.  A storage configuration without `tile_size`
makes `_make_grid_spec` fail with `AssertionError` (from the bare
`assert 'tile_size' in storage`), which is not `ConfigurationError` as
the claim states. -/
theorem C8_tile_size_counterexample :
    _make_grid_spec (fun _ => ["y", "x"])
      (StorageConfig.mk "EPSG:3577" none [("x", 25), ("y", -25)]) =
      Except.error PyErr.assertionError ∧
    PyErr.assertionError ≠ PyErr.configurationError := by
  refine ⟨rfl, by decide⟩

/-- **C8** (amended).  For every storage configuration in which the
`tile_size` key is absent, GridSpec derivation fails — but with
`AssertionError` from the bare `assert`, not `ConfigurationError`. -/
theorem C8_tile_size_amended (crs_dimensions : String → List String)
    (storage : StorageConfig) (h : storage.tile_size = none) :
    _make_grid_spec crs_dimensions storage = Except.error PyErr.assertionError := by
  unfold _make_grid_spec
  rw [h]

/-- Witness for `C8_tile_size_amended` at a concrete configuration. -/
theorem C8_tile_size_amended_witness :
    _make_grid_spec (fun _ => ["y", "x"])
      (StorageConfig.mk "EPSG:4326" none [("x", 25), ("y", -25)]) =
      Except.error PyErr.assertionError :=
  C8_tile_size_amended (fun _ => ["y", "x"])
    (StorageConfig.mk "EPSG:4326" none [("x", 25), ("y", -25)]) rfl

/-- **C9** counterexample.  Not every driver fails with the not-open
`StatsOutputError` when `write_data` is called with no open handles:
`TestOutputDriver.write_data` is a no-op that succeeds, and
`NetCDFCFOutputDriver.write_data` (which never calls the base guard)
raises `KeyError` instead. -/
theorem C9_write_data_counterexample :
    TestOutputDriver_write_data [] "prod" "m" = Except.ok () ∧
    NetCDFCFOutputDriver_write_data [] "prod" "m" =
      Except.error (PyErr.keyError "prod") ∧
    PyErr.keyError "prod" ≠
      PyErr.statsOutputError "No files opened for writing." := by
  refine ⟨rfl, rfl, by decide⟩

/-- **C9** (amended).  With no open handles: the base-class guard (and
hence `GeotiffOutputDriver.write_data` and the ENVIBIL driver, which
inherit it via `super().write_data`) fails with
`StatsOutputError('No files opened for writing.')`; the NetCDF driver
skips the guard and fails with `KeyError` on the product name; the Test
and Xarray drivers accept the call as a no-op. -/
theorem C9_write_data_amended (output_products : List (String × OutProduct))
    (prod_name measurement_name : String) :
    OutputDriver_write_data [] =
      Except.error (PyErr.statsOutputError "No files opened for writing.") ∧
    GeotiffOutputDriver_write_data [] output_products prod_name measurement_name =
      Except.error (PyErr.statsOutputError "No files opened for writing.") ∧
    NetCDFCFOutputDriver_write_data [] prod_name measurement_name =
      Except.error (PyErr.keyError prod_name) ∧
    TestOutputDriver_write_data [] prod_name measurement_name = Except.ok () ∧
    XarrayOutputDriver_write_data [] prod_name measurement_name = Except.ok () := by
  refine ⟨rfl, rfl, rfl, rfl, rfl⟩

/-- **C4** counterexample.  With a filter product configured whose filter
retains no source timestamp, the non-gridded generator checks
`if task.sources:` *before* the filter pass, the pass then deletes the
only source, and the task is still yielded — with an empty `sources`
list. -/
theorem C4_nonempty_sources_counterexample :
    ((NonGriddedTaskGenerator_call c4Arb (some ⟨"by_tide_height"⟩) c4Filter
        none [c4Spec] [(0, 10)]).1.any (fun t => t.sources.isEmpty)) = true := by
  decide

/-- **C1** counterexample.  Two concrete violations of the claim as
stated.  (i) With the Geotiff driver's nested per-measurement handle
layout, `close_files(True)` closes *nothing* and renames *nothing*: the
`_walk_dict` generator discards its recursive call, so the nested handle
is never visited — its path stays at `.tmp` and its final name never
appears.  (ii) The ENVIBIL override has no `return` statement, so a
successful close returns `None`, not the collection of finalized paths. -/
theorem C1_close_files_counterexample :
    (close_files [("prod", HandleNode.sub [("m", HandleNode.leaf "out/f.tif.tmp")])]
        (FS.mk ["out/f.tif.tmp"] []) true true).closedHandles = [] ∧
    "out/f.tif" ∉ (close_files [("prod", HandleNode.sub [("m", HandleNode.leaf "out/f.tif.tmp")])]
        (FS.mk ["out/f.tif.tmp"] []) true true).fs.files ∧
    "out/f.tif.tmp" ∈ (close_files [("prod", HandleNode.sub [("m", HandleNode.leaf "out/f.tif.tmp")])]
        (FS.mk ["out/f.tif.tmp"] []) true true).fs.files ∧
    (ENVIBIL_close_files (fun _ => true) [("prod", HandleNode.leaf "out/f.bil.tmp")]
        (FS.mk ["out/f.bil.tmp"] []) true).ret = none := by
  refine ⟨rfl, by decide, by decide, rfl⟩

/-- **C1** (amended).  For a driver whose handle collection is flat (one
handle per top-level key — the only layout a working driver produces):
`close_files(True)` closes every handle exactly once, renames every
`.tmp` path by dropping the suffix, and returns the finalized paths;
`close_files(False)` closes every handle, leaves the file system — and
hence every `.tmp` path — untouched, and returns the `.tmp` paths.  The
ENVIBIL override closes the same handles but returns `None` (its commit
is the external conversion, not the rename), and on failure also leaves
the file system untouched.  Handles nested below a sub-dict are excluded:
the walk never visits them (see the counterexample). -/
theorem C1_close_files_amended
    (handles : List (String × HandleNode)) (fs : FS) (convOk : String → Bool)
    (hflat : ∀ e ∈ handles, ∃ n, e.2 = HandleNode.leaf n)
    (hfsnd : fs.files.Nodup)
    (hpsnd : (walkDict (fun n => n) handles).Nodup)
    (hin : ∀ p ∈ walkDict (fun n => n) handles, p ∈ fs.files)
    (hnc : ∀ p ∈ walkDict (fun n => n) handles,
      ∀ q ∈ walkDict (fun n => n) handles, pyDropRight q 4 ≠ p) :
    ((close_files handles fs true true).closedHandles = allLeaves handles ∧
     (close_files handles fs true true).ret =
       some ((walkDict (fun n => n) handles).map (fun p => pyDropRight p 4)) ∧
     (∀ p ∈ walkDict (fun n => n) handles,
        pyDropRight p 4 ∈ (close_files handles fs true true).fs.files ∧
        p ∉ (close_files handles fs true true).fs.files)) ∧
    ((close_files handles fs false true).closedHandles = allLeaves handles ∧
     (close_files handles fs false true).fs = fs ∧
     (close_files handles fs false true).ret =
       some (walkDict (fun n => n) handles)) ∧
    (∀ b, (ENVIBIL_close_files convOk handles fs b).ret = none ∧
      (ENVIBIL_close_files convOk handles fs b).closedHandles =
        allLeaves handles) ∧
    (ENVIBIL_close_files convOk handles fs false).fs = fs := by
  have hwalk := walkDict_eq_allLeaves hflat
  refine ⟨⟨?_, ?_, ?_⟩, ⟨?_, ?_, ?_⟩, ?_, ?_⟩
  · simpa [close_files] using hwalk
  · simp [close_files]
  · intro p hp
    have hmain := renameAll_spec hpsnd hfsnd hin hnc p hp
    simpa [close_files] using hmain
  · simpa [close_files] using hwalk
  · simp [close_files]
  · simp [close_files]
  · intro b
    cases b <;> simpa [ENVIBIL_close_files, close_files] using hwalk
  · simp [ENVIBIL_close_files, close_files]

/-- Witness for `C1_close_files_amended` at a single flat handle. -/
theorem C1_close_files_amended_witness :
    (close_files [("prod", HandleNode.leaf "out/f.nc.tmp")]
        (FS.mk ["out/f.nc.tmp"] []) true true).ret = some ["out/f.nc"] ∧
    (close_files [("prod", HandleNode.leaf "out/f.nc.tmp")]
        (FS.mk ["out/f.nc.tmp"] []) false true).fs =
      FS.mk ["out/f.nc.tmp"] [] := by
  have h := C1_close_files_amended [("prod", HandleNode.leaf "out/f.nc.tmp")]
    (FS.mk ["out/f.nc.tmp"] []) (fun _ => true)
    (by
      intro e he
      rcases List.mem_singleton.mp he with rfl
      exact ⟨"out/f.nc.tmp", rfl⟩)
    (by decide) (by decide) (by decide) (by decide)
  exact ⟨h.1.2.1.trans (by rfl), h.2.1.2.1⟩

/-- **C2.**  Exiting the guarded block always invokes `close_files` with
success flag equal to "the body raised no exception"; after an exception,
the close step leaves the file system untouched, and for a run in which
`open_output_files` succeeded and the body then raised, the opened `.tmp`
handle is closed but the final (non-`.tmp`) path does not exist. -/
theorem C2_exit_always_closes
    (handles : List (String × HandleNode)) (fs : FS) (exc_type : Option PyErr)
    (valid_extensions : List String) (prod_name output_path : String)
    (e : PyErr)
    (hext : pathSuffix output_path ∈ valid_extensions)
    (hnew : output_path ∉ fs.files) :
    (OutputDriver_exit handles fs exc_type =
      close_files handles fs exc_type.isNone true) ∧
    (OutputDriver_exit handles fs (some e)).fs = fs ∧
    (∃ out, guardedWriteScenario valid_extensions prod_name output_path fs
        (some e) = Except.ok out ∧
      out.closedHandles = [output_path ++ ".tmp"] ∧
      output_path ∉ out.fs.files ∧
      (output_path ++ ".tmp") ∈ out.fs.files) := by
  refine ⟨rfl, by simp [OutputDriver_exit, close_files], ?_⟩
  have hiff : ¬ pathSuffix output_path ∉ valid_extensions := fun hc => hc hext
  have hcomp : prepare_output_file valid_extensions output_path fs =
      (Except.ok (output_path ++ ".tmp"),
       if output_path ++ ".tmp" ∈ (fs.mkdirSwallow (dirPart output_path)).files
       then (fs.mkdirSwallow (dirPart output_path)).unlink (output_path ++ ".tmp")
       else fs.mkdirSwallow (dirPart output_path)) := by
    simp only [prepare_output_file, if_neg hiff, if_neg hnew, withSuffix_tmp]
  set fs2 := if output_path ++ ".tmp" ∈ (fs.mkdirSwallow (dirPart output_path)).files
    then (fs.mkdirSwallow (dirPart output_path)).unlink (output_path ++ ".tmp")
    else fs.mkdirSwallow (dirPart output_path) with hfs2def
  have hfs2sub : ∀ x, x ∈ fs2.files → x ∈ fs.files := by
    intro x hx
    rw [hfs2def] at hx
    by_cases hc : output_path ++ ".tmp" ∈
        (fs.mkdirSwallow (dirPart output_path)).files
    · simp only [if_pos hc, FS.unlink] at hx
      have := List.mem_of_mem_erase hx
      rwa [FS.mkdirSwallow_files] at this
    · simp only [if_neg hc] at hx
      rwa [FS.mkdirSwallow_files] at hx
  refine ⟨OutputDriver_exit
      [(prod_name, HandleNode.leaf (output_path ++ ".tmp"))]
      (fs2.addFile (output_path ++ ".tmp")) (some e), ?_, rfl, ?_, ?_⟩
  · simp only [guardedWriteScenario, hcomp]
  · show output_path ∉ (fs2.addFile (output_path ++ ".tmp")).files
    intro hmem
    rcases FS.mem_addFile_elim hmem with h1 | h2
    · exact ne_append_tmp output_path h1
    · exact hnew (hfs2sub _ h2)
  · show (output_path ++ ".tmp") ∈ (fs2.addFile (output_path ++ ".tmp")).files
    exact FS.mem_addFile_self _ _

/-- Witness for `C2_exit_always_closes`: a concrete failed write run. -/
theorem C2_exit_always_closes_witness :
    ∃ out, guardedWriteScenario [".nc"] "prod" "out/f.nc" (FS.mk [] ["out/"])
        (some PyErr.indexError) = Except.ok out ∧
      out.closedHandles = ["out/f.nc" ++ ".tmp"] ∧
      "out/f.nc" ∉ out.fs.files ∧
      ("out/f.nc" ++ ".tmp") ∈ out.fs.files :=
  (C2_exit_always_closes [] (FS.mk [] ["out/"]) none [".nc"] "prod" "out/f.nc"
    PyErr.indexError (by decide) (by decide)).2.2

/-- **C3.**  `_prepare_output_file` on a path with a valid extension:
if the final output path already exists, it fails with
`OutputFileAlreadyExists` and the file system is untouched (no write, no
overwrite); if the final path does not exist, it succeeds returning the
`.tmp` sibling, a stale leftover `.tmp` has been removed, the final path
is still absent (nothing was written there), the parent directory exists
afterwards (a pre-existing directory is not an error), and every other
file is preserved. -/
theorem C3_prepare_output_file_guard (valid_extensions : List String)
    (output_path : String) (fs : FS)
    (hext : pathSuffix output_path ∈ valid_extensions)
    (hfsnd : fs.files.Nodup) :
    (output_path ∈ fs.files →
      prepare_output_file valid_extensions output_path fs =
        (Except.error (PyErr.outputFileAlreadyExists output_path), fs)) ∧
    (output_path ∉ fs.files →
      (prepare_output_file valid_extensions output_path fs).1 =
        Except.ok (output_path ++ ".tmp") ∧
      (output_path ++ ".tmp") ∉
        (prepare_output_file valid_extensions output_path fs).2.files ∧
      output_path ∉ (prepare_output_file valid_extensions output_path fs).2.files ∧
      dirPart output_path ∈
        (prepare_output_file valid_extensions output_path fs).2.dirs ∧
      (∀ q ∈ fs.files, q ≠ output_path ++ ".tmp" →
        q ∈ (prepare_output_file valid_extensions output_path fs).2.files)) := by
  have hiff : ¬ pathSuffix output_path ∉ valid_extensions := fun hc => hc hext
  constructor
  · intro hin
    simp only [prepare_output_file, if_neg hiff, if_pos hin]
  · intro hnew
    have htmp : withSuffix output_path (pathSuffix output_path ++ ".tmp") =
        output_path ++ ".tmp" := withSuffix_tmp output_path
    simp only [prepare_output_file, if_neg hiff, if_neg hnew, htmp]
    have hdirs : (fs.mkdirSwallow (dirPart output_path)).dirs =
        ((fs.mkdirSwallow (dirPart output_path))).dirs := rfl
    have hfiles1 : (fs.mkdirSwallow (dirPart output_path)).files = fs.files := by
      unfold FS.mkdirSwallow
      by_cases hd : dirPart output_path ∈ fs.dirs <;> simp [hd]
    by_cases hc : output_path ++ ".tmp" ∈
        (fs.mkdirSwallow (dirPart output_path)).files
    · simp only [if_pos hc]
      refine ⟨trivial, ?_, ?_, ?_, ?_⟩
      · intro hmem
        simp only [FS.unlink, hfiles1] at hmem
        exact absurd ((hfsnd.mem_erase_iff).mp hmem).1 (by simp)
      · intro hmem
        simp only [FS.unlink, hfiles1] at hmem
        exact hnew (List.mem_of_mem_erase hmem)
      · simp only [FS.unlink]
        exact FS.mem_mkdirSwallow_self fs _
      · intro q hq hne
        simp only [FS.unlink, hfiles1]
        exact (List.mem_erase_of_ne hne).mpr hq
    · simp only [if_neg hc]
      refine ⟨trivial, ?_, ?_, FS.mem_mkdirSwallow_self fs _, ?_⟩
      · rw [hfiles1] at hc ⊢
        exact hc
      · rw [hfiles1]
        exact hnew
      · intro q hq hne
        rw [hfiles1]
        exact hq

/-- Witness for `C3_prepare_output_file_guard`: both branches at concrete
inputs (an already-existing final file; a fresh path with a stale tmp). -/
theorem C3_prepare_output_file_guard_witness :
    prepare_output_file [".nc"] "out/f.nc" (FS.mk ["out/f.nc"] ["out/"]) =
      (Except.error (PyErr.outputFileAlreadyExists "out/f.nc"),
       FS.mk ["out/f.nc"] ["out/"]) ∧
    (prepare_output_file [".nc"] "out/f.nc"
        (FS.mk ["out/f.nc.tmp"] ["out/"])).1 = Except.ok ("out/f.nc" ++ ".tmp") := by
  constructor
  · exact (C3_prepare_output_file_guard [".nc"] "out/f.nc"
      (FS.mk ["out/f.nc"] ["out/"]) (by decide) (by decide)).1 (by decide)
  · exact ((C3_prepare_output_file_guard [".nc"] "out/f.nc"
      (FS.mk ["out/f.nc.tmp"] ["out/"]) (by decide) (by decide)).2 (by decide)).1

/-! ## Helper lemmas: task generation -/

theorem foldl_preserve {α β : Type} (I : β → Prop) (f : β → α → β)
    (hf : ∀ b a, I b → I (f b a)) :
    ∀ (l : List α) (b : β), I b → I (l.foldl f b) := by
  intro l
  induction l with
  | nil => intro b hb; exact hb
  | cons a rest ih =>
      intro b hb
      exact ih _ (hf b a hb)

theorem setdefaultAppend_nonempty {tasks : List (TileIdx × StatsTask)}
    {tile : TileIdx} {dflt : StatsTask} {ds : DataSource}
    (h : ∀ kt ∈ tasks, kt.2.sources ≠ []) :
    ∀ kt ∈ setdefaultAppend tasks tile dflt ds, kt.2.sources ≠ [] := by
  induction tasks with
  | nil =>
      intro kt hkt
      rcases List.mem_singleton.mp hkt with rfl
      simp
  | cons e rest ih =>
      obtain ⟨k, t⟩ := e
      intro kt hkt
      by_cases hk : k = tile
      · simp only [setdefaultAppend, if_pos hk] at hkt
        rcases List.mem_cons.mp hkt with rfl | hmem
        · simp
        · exact h kt (List.mem_cons_of_mem _ hmem)
      · simp only [setdefaultAppend, if_neg hk] at hkt
        rcases List.mem_cons.mp hkt with rfl | hmem
        · exact h (k, t) (List.mem_cons_self _ _)
        · exact ih (fun x hx => h x (List.mem_cons_of_mem _ hx)) kt hmem

theorem setdefaultAppend_forall {P : DataSource → Prop}
    {tasks : List (TileIdx × StatsTask)} {tile : TileIdx} {dflt : StatsTask}
    {ds : DataSource}
    (h : ∀ kt ∈ tasks, ∀ d ∈ kt.2.sources, P d)
    (hd0 : ∀ d ∈ dflt.sources, P d) (hds : P ds) :
    ∀ kt ∈ setdefaultAppend tasks tile dflt ds, ∀ d ∈ kt.2.sources, P d := by
  induction tasks with
  | nil =>
      intro kt hkt d hd
      rcases List.mem_singleton.mp hkt with rfl
      rcases List.mem_append.mp hd with h1 | h2
      · exact hd0 d h1
      · rcases List.mem_singleton.mp h2 with rfl
        exact hds
  | cons e rest ih =>
      obtain ⟨k, t⟩ := e
      intro kt hkt
      by_cases hk : k = tile
      · simp only [setdefaultAppend, if_pos hk] at hkt
        rcases List.mem_cons.mp hkt with rfl | hmem
        · intro d hd
          rcases List.mem_append.mp hd with h1 | h2
          · exact h (k, t) (List.mem_cons_self _ _) d h1
          · rcases List.mem_singleton.mp h2 with rfl
            exact hds
        · exact h kt (List.mem_cons_of_mem _ hmem)
      · simp only [setdefaultAppend, if_neg hk] at hkt
        rcases List.mem_cons.mp hkt with rfl | hmem
        · exact h (k, t) (List.mem_cons_self _ _)
        · exact ih (fun x hx => h x (List.mem_cons_of_mem _ hx)) kt hmem

theorem collect_step_nonempty (oracle : CellOracle) (tp : Nat × Nat)
    (ti : Option TileIdx) (tasks : List (TileIdx × StatsTask))
    (p : Nat × SourceSpec) (h : ∀ kt ∈ tasks, kt.2.sources ≠ []) :
    ∀ kt ∈ collect_step oracle tp ti tasks p, kt.2.sources ≠ [] := by
  rcases hft : filter_time_by_source p.2.time tp with _ | ep
  · simpa [collect_step, hft] using h
  · simp only [collect_step, hft]
    exact foldl_preserve
      (fun (ts : List (TileIdx × StatsTask)) => ∀ kt ∈ ts, kt.2.sources ≠ [])
      _ (fun b a hb => setdefaultAppend_nonempty hb) _ _ h

theorem collect_tasks_nonempty (oracle : CellOracle) (tp : Nat × Nat)
    (specs : List SourceSpec) (ti : Option TileIdx) :
    ∀ t ∈ collect_tasks oracle tp specs ti, t.sources ≠ [] := by
  intro t ht
  unfold collect_tasks at ht
  rcases List.mem_map.mp ht with ⟨kt, hkt, rfl⟩
  have hinv : ∀ x ∈ specs.enum.foldl (collect_step oracle tp ti) [],
      x.2.sources ≠ [] :=
    foldl_preserve
      (fun (ts : List (TileIdx × StatsTask)) => ∀ kt ∈ ts, kt.2.sources ≠ [])
      _ (fun b a hb => collect_step_nonempty oracle tp ti b a hb)
      _ _ (by intro x hx; cases hx)
  exact hinv kt hkt

/-- For the gridded generator, the `DataSource` appended at a tile carries
one mask slot per declared mask of its spec, in declaration order: the
lookup of that tile in each declared mask product's query result. -/
theorem collect_step_masks (oracle : CellOracle) (tp : Nat × Nat)
    (ti : Option TileIdx) (tasks : List (TileIdx × StatsTask))
    (p : Nat × SourceSpec)
    (h : ∀ kt ∈ tasks, ∀ d ∈ kt.2.sources,
      d.masks.length = d.spec.masks.length ∧
      ∃ ep tile, d.masks = d.spec.masks.map
        (fun m => alookup tile (oracle.tiles m.product ti ep))) :
    ∀ kt ∈ collect_step oracle tp ti tasks p, ∀ d ∈ kt.2.sources,
      d.masks.length = d.spec.masks.length ∧
      ∃ ep tile, d.masks = d.spec.masks.map
        (fun m => alookup tile (oracle.tiles m.product ti ep)) := by
  rcases hft : filter_time_by_source p.2.time tp with _ | ep
  · simpa [collect_step, hft] using h
  · simp only [collect_step, hft, multi_product_list_cells, List.map_cons,
      List.tail_cons, List.headD_cons]
    refine foldl_preserve
      (fun (ts : List (TileIdx × StatsTask)) =>
        ∀ kt ∈ ts, ∀ d ∈ kt.2.sources,
        d.masks.length = d.spec.masks.length ∧
        ∃ ep tile, d.masks = d.spec.masks.map
          (fun m => alookup tile (oracle.tiles m.product ti ep)))
      _ ?_ _ _ h
    intro b a hb
    refine setdefaultAppend_forall hb (by intro d hd; cases hd) ?_
    constructor
    · simp [List.length_map]
    · exact ⟨ep, a.1, by simp [List.map_map]⟩

theorem collect_tasks_masks (oracle : CellOracle) (tp : Nat × Nat)
    (specs : List SourceSpec) (ti : Option TileIdx) :
    ∀ t ∈ collect_tasks oracle tp specs ti, ∀ d ∈ t.sources,
      d.masks.length = d.spec.masks.length ∧
      ∃ ep tile, d.masks = d.spec.masks.map
        (fun m => alookup tile (oracle.tiles m.product ti ep)) := by
  intro t ht
  unfold collect_tasks at ht
  rcases List.mem_map.mp ht with ⟨kt, hkt, rfl⟩
  have hinv := foldl_preserve (fun (ts : List (TileIdx × StatsTask)) =>
      ∀ kt ∈ ts, ∀ d ∈ kt.2.sources,
        d.masks.length = d.spec.masks.length ∧
        ∃ ep tile, d.masks = d.spec.masks.map
          (fun m => alookup tile (oracle.tiles m.product ti ep)))
    (collect_step oracle tp ti)
    (fun b a hb => collect_step_masks oracle tp ti b a hb)
    specs.enum [] (by intro x hx; cases hx)
  exact hinv kt hkt

theorem ok_bind {ε α β : Type} (a : α) (f : α → Except ε β) :
    (Except.ok a : Except ε α) >>= f = f a := rfl

theorem error_bind {ε α β : Type} (e : ε) (f : α → Except ε β) :
    (Except.error e : Except ε α) >>= f = Except.error e := rfl

theorem snd_mem_of_mem_enumFrom {α : Type} :
    ∀ {l : List α} {n : Nat} {x : Nat × α}, x ∈ l.enumFrom n → x.2 ∈ l := by
  intro l
  induction l with
  | nil => intro n x h; cases h
  | cons a t ih =>
      intro n x h
      rcases List.mem_cons.mp h with rfl | h2
      · exact List.mem_cons_self _ _
      · exact List.mem_cons_of_mem _ (ih h2)

theorem snd_mem_of_mem_enum {α : Type} {l : List α} {x : Nat × α}
    (h : x ∈ l.enum) : x.2 ∈ l :=
  snd_mem_of_mem_enumFrom h

/-- `set_task_step` appends exactly one source — the original, or the
original with its tile narrowed — to the accumulator's source list. -/
theorem set_task_step_ok {m : Option String} {ft : List String}
    {acc : List DataSource × List Nat} {p : Nat × DataSource}
    {r : List DataSource × List Nat}
    (h : set_task_step m ft acc p = Except.ok r) :
    r.1 = acc.1 ++ [p.2] ∨
      ∃ t', r.1 = acc.1 ++ [{ p.2 with data := t' }] := by
  simp only [set_task_step] at h
  by_cases h1 : m = some "by_hydrological_months"
  · rw [if_pos h1, ok_bind] at h
    by_cases h3 : (p.2.data.times.map strftimeDay).any
        (fun d => ft.contains d) = true
    · rw [if_pos h3] at h
      obtain rfl := Except.ok.inj h
      exact Or.inr ⟨_, rfl⟩
    · rw [if_neg h3] at h
      obtain rfl := Except.ok.inj h
      exact Or.inl rfl
  · rw [if_neg h1] at h
    by_cases h2 : m = some "by_tide_height"
    · rw [if_pos h2, ok_bind] at h
      by_cases h3 : (p.2.data.times.map strftimeFull).any
          (fun d => ft.contains d) = true
      · rw [if_pos h3] at h
        obtain rfl := Except.ok.inj h
        exact Or.inr ⟨_, rfl⟩
      · rw [if_neg h3] at h
        obtain rfl := Except.ok.inj h
        exact Or.inl rfl
    · rw [if_neg h2, error_bind] at h
      simp at h

theorem delFold_subset :
    ∀ (idxs : List Nat) (srcs final : List DataSource),
      idxs.foldlM del_step srcs = Except.ok final → ∀ d ∈ final, d ∈ srcs := by
  intro idxs
  induction idxs with
  | nil =>
      intro srcs final h d hd
      simp only [List.foldlM_nil, pure, Except.pure] at h
      obtain rfl := Except.ok.inj h
      exact hd
  | cons i rest ih =>
      intro srcs final h d hd
      rw [List.foldlM_cons] at h
      by_cases hi : i < srcs.length
      · rw [show del_step srcs i = Except.ok (srcs.eraseIdx i) by
          simp [del_step, hi], ok_bind] at h
        exact List.mem_of_mem_eraseIdx (ih _ _ h d hd)
      · rw [show del_step srcs i = Except.error PyErr.indexError by
          simp [del_step, hi], error_bind] at h
        simp at h

theorem passOne_preserve {P : DataSource → Prop}
    (hP : ∀ ds t', P ds → P { ds with data := t' }) (m : Option String)
    (ft : List String) :
    ∀ (l : List (Nat × DataSource)) (acc : List DataSource × List Nat)
      (r : List DataSource × List Nat),
      (∀ d ∈ acc.1, P d) → (∀ q ∈ l, P q.2) →
      l.foldlM (set_task_step m ft) acc = Except.ok r → ∀ d ∈ r.1, P d := by
  intro l
  induction l with
  | nil =>
      intro acc r hacc hl h d hd
      simp only [List.foldlM_nil, pure, Except.pure] at h
      obtain rfl := Except.ok.inj h
      exact hacc d hd
  | cons q rest ih =>
      intro acc r hacc hl h d hd
      rw [List.foldlM_cons] at h
      cases hstep : set_task_step m ft acc q with
      | error e => rw [hstep, error_bind] at h; simp at h
      | ok acc' =>
          rw [hstep, ok_bind] at h
          refine ih acc' r ?_ (fun x hx => hl x (List.mem_cons_of_mem _ hx))
            h d hd
          rcases set_task_step_ok hstep with h1 | ⟨t', h2⟩
          · intro x hx
            rw [h1] at hx
            rcases List.mem_append.mp hx with hx1 | hx2
            · exact hacc x hx1
            · rcases List.mem_singleton.mp hx2 with rfl
              exact hl q (List.mem_cons_self _ _)
          · intro x hx
            rw [h2] at hx
            rcases List.mem_append.mp hx with hx1 | hx2
            · exact hacc x hx1
            · rcases List.mem_singleton.mp hx2 with rfl
              exact hP _ _ (hl q (List.mem_cons_self _ _))

/-- `set_task` only narrows or removes sources: any predicate invariant
under replacing a source's tile holds for every surviving source. -/
theorem set_task_preserve {P : DataSource → Prop}
    (hP : ∀ ds t', P ds → P { ds with data := t' })
    {m : Option String} {task : StatsTask} {ft : List String} {t2 : StatsTask}
    (h : ∀ d ∈ task.sources, P d)
    (hr : set_task m task ft = Except.ok t2) : ∀ d ∈ t2.sources, P d := by
  unfold set_task at hr
  cases h1 : task.sources.enum.foldlM (set_task_step m ft) ([], []) with
  | error e => rw [h1, error_bind] at hr; simp at hr
  | ok rr =>
      rw [h1, ok_bind] at hr
      cases h2 : rr.2.foldlM del_step rr.1 with
      | error e => rw [h2, error_bind] at hr; simp at hr
      | ok fs =>
          rw [h2, ok_bind] at hr
          obtain rfl := Except.ok.inj hr
          intro d hd
          have hd' : d ∈ rr.1 := delFold_subset _ _ _ h2 d hd
          exact passOne_preserve hP m ft task.sources.enum ([], []) rr
            (by intro x hx; cases hx)
            (fun q hq => h q.2 (snd_mem_of_mem_enum hq)) h1 d hd'

theorem filter_task_preserve {P : DataSource → Prop}
    (hP : ∀ ds t', P ds → P { ds with data := t' })
    {fp : Option FilterProduct} {fOracle : FilterOracle} {task : StatsTask}
    {feature : Option Feature} {drs : List (Nat × Nat)} {t' : StatsTask}
    (h : ∀ d ∈ task.sources, P d)
    (hr : filter_task fp fOracle task feature drs = Except.ok t') :
    ∀ d ∈ t'.sources, P d := by
  cases fp with
  | none =>
      simp only [filter_task] at hr
      obtain rfl := Except.ok.inj hr
      exact h
  | some f =>
      simp only [filter_task] at hr
      cases hres : set_task (some f.method) task
          ((fOracle.apply f feature (List.insertionSort (fun a b => a ≤ b)
            (task.sources.foldl (fun acc sr => acc ++ sr.data.times) []))
            drs).2) with
      | error e => rw [hres] at hr; simp at hr
      | ok t2 =>
          rw [hres] at hr
          obtain rfl := Except.ok.inj hr
          exact show ∀ d ∈ t2.sources, P d from set_task_preserve hP h hres

/-- A task is yielded by the non-gridded generator for a
(feature, period) pair exactly when the spec loop accumulated a non-empty
source list; the yielded value is the filtered task. -/
theorem one_task_cases {arb : ArbOracle} {fp : Option FilterProduct}
    {fOracle : FilterOracle} {feature : Option Feature} {tp : Nat × Nat}
    {specs : List SourceSpec} {drs : List (Nat × Nat)}
    {r : Except PyErr StatsTask}
    (h : NonGridded_one_task arb fp fOracle feature tp specs drs = some r) :
    (specs.enum.foldl (nonGridded_spec_step arb feature tp)
        (StatsTask.mk tp (SpatialId.featureId (featureIdOf feature))
          [])).sources ≠ [] ∧
      r = filter_task fp fOracle
        (specs.enum.foldl (nonGridded_spec_step arb feature tp)
          (StatsTask.mk tp (SpatialId.featureId (featureIdOf feature)) []))
        feature drs := by
  simp only [NonGridded_one_task] at h
  by_cases he : (specs.enum.foldl (nonGridded_spec_step arb feature tp)
      (StatsTask.mk tp (SpatialId.featureId (featureIdOf feature))
        [])).sources.isEmpty
  · rw [if_pos he] at h
    simp at h
  · rw [if_neg he] at h
    refine ⟨?_, (Option.some.inj h).symm⟩
    intro hnil
    exact he (by simp [hnil])

theorem nonGridded_spec_step_masks {arb : ArbOracle} {feature : Option Feature}
    {tp : Nat × Nat} (task : StatsTask) (p : Nat × SourceSpec)
    (h : ∀ d ∈ task.sources, d.masks.length = d.spec.masks.length ∧
      ∀ s ∈ d.masks, s.isSome = true) :
    ∀ d ∈ (nonGridded_spec_step arb feature tp task p).sources,
      d.masks.length = d.spec.masks.length ∧
      ∀ s ∈ d.masks, s.isSome = true := by
  rcases hft : filter_time_by_source p.2.time tp with _ | ep
  · simpa [nonGridded_spec_step, hft] using h
  · simp only [nonGridded_spec_step, hft]
    by_cases hz : (arb.tile p.2.product feature ep
        (p.2.group_by.getD "time")).times.length = 0
    · rw [if_pos hz]
      exact h
    · rw [if_neg hz]
      intro d hd
      rcases List.mem_append.mp hd with h1 | h2
      · exact h d h1
      · rcases List.mem_singleton.mp h2 with rfl
        constructor
        · simp
        · intro s hs
          rcases List.mem_map.mp hs with ⟨x, hx, rfl⟩
          rfl

/-- Every task the non-gridded generator yields satisfies any property
guaranteed for each successfully-yielded `one_task` result. -/
theorem nongridded_call_forall {arb : ArbOracle} {fp : Option FilterProduct}
    {fOracle : FilterOracle} {features : Option (List Feature)}
    {specs : List SourceSpec} {drs : List (Nat × Nat)}
    {Q : StatsTask → Prop}
    (hQ : ∀ feature tp t,
      NonGridded_one_task arb fp fOracle feature tp specs drs =
        some (Except.ok t) → Q t) :
    ∀ t ∈ (NonGriddedTaskGenerator_call arb fp fOracle features specs
      drs).1, Q t := by
  unfold NonGriddedTaskGenerator_call
  refine foldl_preserve
    (fun (acc : List StatsTask × Option PyErr) => ∀ x ∈ acc.1, Q x)
    _ ?_ _ _ (by intro x hx; cases hx)
  intro b a hb
  cases hacc : b.2 with
  | some e => simpa [hacc] using hb
  | none =>
      simp only [hacc]
      cases hone : NonGridded_one_task arb fp fOracle a.1 a.2 specs drs with
      | none => simpa using hb
      | some r =>
          cases r with
          | error e => simpa using hb
          | ok t' =>
              simp only []
              intro x hx
              rcases List.mem_append.mp hx with h1 | h2
              · exact hb x h1
              · rcases List.mem_singleton.mp h2 with rfl
                exact hQ a.1 a.2 x hone

/-- **C4** (amended).  The gridded generator only ever creates a task
together with an appended `DataSource`, so every yielded task has a
non-empty `sources` list.  The non-gridded generator checks non-emptiness
*before* the temporal-filter pass: with no filter product configured the
yielded tasks are all non-empty, but when a filter product is configured
the pass may empty the list after the check and the task is still yielded
(see the counterexample). -/
theorem C4_nonempty_sources_amended
    (oracle : CellOracle) (tis : Option (List TileIdx))
    (specs : List SourceSpec) (drs : List (Nat × Nat)) (arb : ArbOracle)
    (fOracle : FilterOracle) (features : Option (List Feature)) :
    (∀ t ∈ GriddedTaskGenerator_call oracle tis specs drs, t.sources ≠ []) ∧
    (∀ t ∈ (NonGriddedTaskGenerator_call arb none fOracle features specs
      drs).1, t.sources ≠ []) := by
  constructor
  · cases tis with
    | some tis' =>
        intro t ht
        unfold GriddedTaskGenerator_call at ht
        rcases List.mem_flatten.mp ht with ⟨l, hl, htl⟩
        rcases List.mem_map.mp hl with ⟨tp, htp, rfl⟩
        rcases List.mem_flatten.mp htl with ⟨l2, hl2, htl2⟩
        rcases List.mem_map.mp hl2 with ⟨ti, hti, rfl⟩
        exact collect_tasks_nonempty _ _ _ _ t htl2
    | none =>
        intro t ht
        unfold GriddedTaskGenerator_call at ht
        rcases List.mem_flatten.mp ht with ⟨l, hl, htl⟩
        rcases List.mem_map.mp hl with ⟨tp, htp, rfl⟩
        exact collect_tasks_nonempty _ _ _ _ t htl
  · refine nongridded_call_forall ?_
    intro feature tp t hone
    obtain ⟨hne, hr⟩ := one_task_cases hone
    simp only [filter_task] at hr
    obtain rfl := Except.ok.inj hr
    exact hne

/-- Witness for `C4_nonempty_sources_amended` at concrete oracles: all
yielded tasks of both generators have non-empty sources. -/
theorem C4_nonempty_sources_amended_witness :
    (GriddedTaskGenerator_call c4gOracle none [c4Spec] [(0, 10)]).all
      (fun t => !t.sources.isEmpty) = true ∧
    ((NonGriddedTaskGenerator_call c4nArb none c4nFilter none [c4Spec]
      [(0, 10)]).1).all (fun t => !t.sources.isEmpty) = true := by
  have h := C4_nonempty_sources_amended c4gOracle none [c4Spec] [(0, 10)]
    c4nArb c4nFilter none
  constructor
  · rw [List.all_eq_true]
    intro t ht
    have := h.1 t ht
    simpa [List.isEmpty_iff] using this
  · rw [List.all_eq_true]
    intro t ht
    have := h.2 t ht
    simpa [List.isEmpty_iff] using this

/-- **C7.**  Every `DataSource` of every yielded task carries exactly one
mask slot per mask declared in its originating spec, in declaration
order.  Gridded: the slots are the per-declared-mask tile lookups, so a
mask product with no match at that tile occupies its slot as `none`
rather than being omitted.  Non-gridded: each declared mask occupies its
slot with an explicit tile (possibly empty), even through the
temporal-filter pass, which touches only the primary tile. -/
theorem C7_masks_aligned
    (oracle : CellOracle) (tp : Nat × Nat) (specs : List SourceSpec)
    (ti : Option TileIdx) (arb : ArbOracle) (fp : Option FilterProduct)
    (fOracle : FilterOracle) (features : Option (List Feature))
    (drs : List (Nat × Nat)) :
    (∀ t ∈ collect_tasks oracle tp specs ti, ∀ ds ∈ t.sources,
      ds.masks.length = ds.spec.masks.length ∧
      ∃ ep tile, ds.masks = ds.spec.masks.map
        (fun m => alookup tile (oracle.tiles m.product ti ep))) ∧
    (∀ t ∈ (NonGriddedTaskGenerator_call arb fp fOracle features specs
      drs).1, ∀ ds ∈ t.sources,
      ds.masks.length = ds.spec.masks.length ∧
      ∀ s ∈ ds.masks, s.isSome = true) := by
  constructor
  · exact collect_tasks_masks oracle tp specs ti
  · refine nongridded_call_forall ?_
    intro feature tp' t hone
    obtain ⟨hne, hr⟩ := one_task_cases hone
    have hbuild : ∀ d ∈ (specs.enum.foldl
        (nonGridded_spec_step arb feature tp')
        (StatsTask.mk tp' (SpatialId.featureId (featureIdOf feature))
          [])).sources,
        d.masks.length = d.spec.masks.length ∧
        ∀ s ∈ d.masks, s.isSome = true :=
      foldl_preserve
        (fun (tk : StatsTask) => ∀ d ∈ tk.sources,
          d.masks.length = d.spec.masks.length ∧
          ∀ s ∈ d.masks, s.isSome = true)
        _ (fun b a hb => nonGridded_spec_step_masks b a hb) _ _
        (by intro d hd; cases hd)
    exact filter_task_preserve (fun ds t' hp => hp) hbuild hr.symm

/-- Witness for `C7_masks_aligned`: with two declared masks matching no
tiles, each yielded `DataSource` still has two mask slots. -/
theorem C7_masks_aligned_witness :
    (collect_tasks c7Oracle (0, 10) [c7Spec] none).all
      (fun t => t.sources.all
        (fun ds => ds.masks.length == ds.spec.masks.length)) = true ∧
    ((NonGriddedTaskGenerator_call c7Arb (some ⟨"by_tide_height"⟩) c7Filter
        none [c7Spec] [(0, 10)]).1).all
      (fun t => t.sources.all
        (fun ds => ds.masks.length == ds.spec.masks.length)) = true := by
  have h := C7_masks_aligned c7Oracle (0, 10) [c7Spec] none c7Arb
    (some ⟨"by_tide_height"⟩) c7Filter none [(0, 10)]
  constructor
  · rw [List.all_eq_true]
    intro t ht
    rw [List.all_eq_true]
    intro ds hds
    exact beq_iff_eq.mpr (h.1 t ht ds hds).1
  · rw [List.all_eq_true]
    intro t ht
    rw [List.all_eq_true]
    intro ds hds
    exact beq_iff_eq.mpr (h.2 t ht ds hds).1

end DCS
